import Mathlib

/-!
Verification of the feature-extraction and confidence-estimation logic of the
ConstructionDelayDetector repository.

The development shallowly embeds the Python sources:
* `ml_system/ml_api.py` — `extract_features_from_project` and the
  `/predict` HTTP handler;
* `ml_system/train_model.py` — `ConstructionDelayPredictor.predict`,
  `_calculate_confidence` and `_calculate_overall_confidence`;
* `ml_training/delay_predictor.py` — `predict_delay` and the mutable
  predictor state touched by `train_models`;
* `ml_training/ml_api.py` — the serving endpoints, in particular `/retrain`.

Python floats are modelled by `ℚ`; Python `round(x, d)` (round half to even)
by `pyRound`; calendar dates by their day ordinals in `ℤ`; a raised exception
by an `Except.error` carrying the message.  The fitted scikit-learn models are
opaque to the repository, so their outputs (raw predictions, per-tree
predictions, staged predictions, cross-validation errors) enter the embedding
as explicit parameters, exactly where the Python code calls into the library.
-/

/-- Python `round` to an integer: round half to even (banker's rounding). -/
def pyRoundHalfEven (x : ℚ) : ℤ :=
  let f := ⌊x⌋
  let frac := x - f
  if frac < 1/2 then f
  else if 1/2 < frac then f + 1
  else if f % 2 = 0 then f else f + 1

/-- Python `round(x, d)` on exact rationals. -/
def pyRound (x : ℚ) (d : ℕ) : ℚ := (pyRoundHalfEven (x * 10 ^ d) : ℚ) / 10 ^ d

theorem floor_le_pyRoundHalfEven (x : ℚ) : ⌊x⌋ ≤ pyRoundHalfEven x := by
  unfold pyRoundHalfEven
  dsimp only
  split
  · exact le_refl _
  · split
    · exact le_of_lt (lt_add_one _)
    · split
      · exact le_refl _
      · exact le_of_lt (lt_add_one _)

theorem pyRoundHalfEven_le {x : ℚ} {n : ℤ} (h : x ≤ n) : pyRoundHalfEven x ≤ n := by
  unfold pyRoundHalfEven
  dsimp only
  have hfl : (⌊x⌋ : ℚ) ≤ x := Int.floor_le x
  have hfln : ⌊x⌋ ≤ n := by
    have := Int.floor_le_floor (α := ℚ) h
    simpa using this
  split
  · exact hfln
  · rename_i hge
    push_neg at hge
    have hlt : (⌊x⌋ : ℚ) < (n : ℚ) := by linarith
    have hltz : ⌊x⌋ < n := by exact_mod_cast hlt
    split
    · omega
    · split <;> omega

theorem pyRound_nonneg {x : ℚ} (hx : 0 ≤ x) (d : ℕ) : 0 ≤ pyRound x d := by
  unfold pyRound
  have h1 : (0 : ℤ) ≤ ⌊x * 10 ^ d⌋ := Int.floor_nonneg.mpr (by positivity)
  have h2 := floor_le_pyRoundHalfEven (x * 10 ^ d)
  have h3 : (0 : ℚ) ≤ (pyRoundHalfEven (x * 10 ^ d) : ℚ) := by
    exact_mod_cast le_trans h1 h2
  positivity

theorem pyRound_le_one {x : ℚ} (hx : x ≤ 1) (d : ℕ) : pyRound x d ≤ 1 := by
  unfold pyRound
  have hx' : x * 10 ^ d ≤ ((10 ^ d : ℤ) : ℚ) := by
    push_cast
    have : (0 : ℚ) < 10 ^ d := by positivity
    nlinarith
  have h2 := pyRoundHalfEven_le hx'
  have h3 : (pyRoundHalfEven (x * 10 ^ d) : ℚ) ≤ (10 ^ d : ℚ) := by
    exact_mod_cast h2
  have hpow : (0 : ℚ) < 10 ^ d := by positivity
  rw [div_le_one hpow]
  exact h3

/-- Mean of a list of numbers, as `np.mean` computes it (sum divided by
length; division by zero yields zero in `ℚ`, matching the embedding's use on
nonempty lists only). -/
def pyMean (xs : List ℚ) : ℚ := xs.sum / xs.length

/-- Population variance of a list, the square of `np.std` (which uses
`ddof = 0`). -/
def pyVariance (xs : List ℚ) : ℚ :=
  (xs.map (fun x => (x - pyMean xs) ^ 2)).sum / xs.length

namespace MLSystem

/-- Engineered feature vector produced by `extract_features_from_project`
(`ml_system/ml_api.py`). -/
structure Features where
  progress_efficiency : ℚ
  resource_availability : ℚ
  project_complexity : ℚ
  weather_impact : ℚ
  timeline_pressure : ℚ
deriving DecidableEq, Repr

/-- Project record as consumed by `extract_features_from_project`: the raw
request fields after JSON decoding.  `currentProgress` and `totalBudget` are
the numeric values after Python's `float(...)` coercion and the
`dict.get` defaults; the dates are day ordinals of the parsed ISO dates,
`none` when the field is absent or empty; the three resource fields are the
lengths of the corresponding lists. -/
structure Project where
  currentProgress : ℚ
  startDate : Option ℤ
  endDate : Option ℤ
  humanResources : ℕ
  materials : ℕ
  equipment : ℕ
  totalBudget : ℚ
  location : List Char
deriving DecidableEq, Repr

/-- Python's substring test `needle in hay` on lowered location strings. -/
def strContains (hay needle : List Char) : Bool :=
  hay.tails.any (fun t => needle.isPrefixOf t)

/-- The hard-coded `weather_risk_map` of `extract_features_from_project`, in
Python dict insertion order. -/
def weather_risk_map : List (List Char × ℚ) :=
  [("delhi".toList, 8/10), ("mumbai".toList, 9/10),
   ("bangalore".toList, 6/10), ("chennai".toList, 8/10),
   ("kolkata".toList, 9/10), ("hyderabad".toList, 7/10),
   ("pune".toList, 7/10), ("ahmedabad".toList, 8/10)]

/-- The weather-impact lookup loop: first city whose name is a substring of
the lowered location wins, default `0.7`. -/
def lookupWeather (loc : List Char) : ℚ :=
  match weather_risk_map.find? (fun p => strContains loc p.1) with
  | some p => p.2
  | none => 7/10

/-- Progress-efficiency block of `extract_features_from_project`
(`ml_system/ml_api.py`, lines 36–57): when both dates are present and the
planned duration is positive, compare actual against expected progress and
clamp into `[0.1, 1]`; otherwise the default `0.8`. -/
def progressEfficiencyOf (p : Project) (now : ℤ) : ℚ :=
  let current_progress : ℚ := p.currentProgress / 100
  match p.startDate, p.endDate with
  | some s, some e =>
    let total_days : ℤ := e - s
    let elapsed_days : ℤ := now - s
    if 0 < total_days then
      let expected_progress : ℚ :=
        min 1 (max 0 ((elapsed_days : ℚ) / (total_days : ℚ)))
      let progress_variance := current_progress - expected_progress
      max (1/10) (min 1 (1 + progress_variance))
    else 8/10
  | _, _ => 8/10

/-- `total_resources` of `extract_features_from_project` (line 64). -/
def totalResourcesOf (p : Project) : ℕ :=
  p.humanResources + p.materials + p.equipment

/-- Resource-availability block (`ml_system/ml_api.py`, lines 59–73). -/
def resourceAvailabilityOf (p : Project) : ℚ :=
  if 0 < totalResourcesOf p then
    let resource_density : ℚ := min 1 ((totalResourcesOf p : ℚ) / 15)
    let budget_factor : ℚ := min 1 (p.totalBudget / 10000000)
    resource_density * (6/10) + budget_factor * (4/10)
  else 1/2

/-- Project-complexity block (`ml_system/ml_api.py`, lines 75–78). -/
def projectComplexityOf (p : Project) : ℚ :=
  let budget_complexity : ℚ := min 1 (p.totalBudget / 50000000)
  let resource_complexity : ℚ := min 1 ((totalResourcesOf p : ℚ) / 20)
  budget_complexity * (6/10) + resource_complexity * (4/10)

/-- Weather-impact block (`ml_system/ml_api.py`, lines 80–91). -/
def weatherImpactOf (p : Project) : ℚ :=
  lookupWeather (p.location.map Char.toLower)

/-- Timeline-pressure block (`ml_system/ml_api.py`, lines 93–103).  With
both dates present, `remaining_ratio = (end - now).days / total_days` is an
unguarded division: when `total_days = 0` Python raises
`ZeroDivisionError`, modelled by `Except.error`. -/
def timelinePressureOf (p : Project) (now : ℤ) : Except String ℚ :=
  let current_progress : ℚ := p.currentProgress / 100
  match p.startDate, p.endDate with
  | some s, some e =>
    let total_days : ℤ := e - s
    if total_days = 0 then .error ("division by zero")
    else
      let remaining_frac : ℚ := max 0 (((e - now : ℤ) : ℚ) / (total_days : ℚ))
      if remaining_frac < 3/10 ∧ current_progress < 8/10 then .ok (8/10)
      else if remaining_frac < 1/2 ∧ current_progress < 7/10 then .ok (6/10)
      else .ok (3/10)
  | _, _ => .ok (4/10)

/-- Shallow embedding of `extract_features_from_project`
(`ml_system/ml_api.py`, lines 30–111).  `now` is the day ordinal of
`datetime.now(...)`.  The result is `Except.error` exactly when the Python
code raises: the only raise reachable from a well-typed record is the
`ZeroDivisionError` in the timeline-pressure computation (the guarded
progress-efficiency branch avoids its own division).  Each feature is
rounded to three decimals in the returned dict. -/
def extract_features_from_project (p : Project) (now : ℤ) :
    Except String Features :=
  match timelinePressureOf p now with
  | .error e => .error e
  | .ok tp =>
    .ok { progress_efficiency := pyRound (progressEfficiencyOf p now) 3
          resource_availability := pyRound (resourceAvailabilityOf p) 3
          project_complexity := pyRound (projectComplexityOf p) 3
          weather_impact := pyRound (weatherImpactOf p) 3
          timeline_pressure := pyRound tp 3 }

theorem extract_ok_shape (p : Project) (now : ℤ) (f : Features)
    (hok : extract_features_from_project p now = .ok f) :
    ∃ tp, timelinePressureOf p now = .ok tp ∧
      f = { progress_efficiency := pyRound (progressEfficiencyOf p now) 3
            resource_availability := pyRound (resourceAvailabilityOf p) 3
            project_complexity := pyRound (projectComplexityOf p) 3
            weather_impact := pyRound (weatherImpactOf p) 3
            timeline_pressure := pyRound tp 3 } := by
  unfold extract_features_from_project at hok
  cases htl : timelinePressureOf p now with
  | error e => rw [htl] at hok; exact absurd hok (by simp)
  | ok tp =>
    rw [htl] at hok
    simp only [Except.ok.injEq] at hok
    exact ⟨tp, rfl, hok.symm⟩

theorem lookupWeather_bounds (loc : List Char) :
    0 ≤ lookupWeather loc ∧ lookupWeather loc ≤ 1 := by
  unfold lookupWeather
  cases hfind : weather_risk_map.find? (fun q => strContains loc q.1) with
  | none => norm_num
  | some q =>
    have hmem := List.mem_of_find?_eq_some hfind
    dsimp only
    fin_cases hmem <;> norm_num

theorem progressEfficiencyOf_bounds (p : Project) (now : ℤ) :
    0 ≤ progressEfficiencyOf p now ∧ progressEfficiencyOf p now ≤ 1 := by
  obtain ⟨cp, sd, ed, hr, mt, eqp, tb, loc⟩ := p
  unfold progressEfficiencyOf
  cases sd with
  | none => norm_num
  | some s =>
    cases ed with
    | none => norm_num
    | some e =>
      dsimp only
      split
      · constructor
        · exact le_trans (by norm_num) (le_max_left _ _)
        · exact max_le (by norm_num) (min_le_left _ _)
      · norm_num

theorem resourceAvailabilityOf_bounds (p : Project) (hb : 0 ≤ p.totalBudget) :
    0 ≤ resourceAvailabilityOf p ∧ resourceAvailabilityOf p ≤ 1 := by
  unfold resourceAvailabilityOf
  split
  · dsimp only
    have hd0 : (0 : ℚ) ≤ min 1 ((totalResourcesOf p : ℚ) / 15) :=
      le_min (by norm_num) (by positivity)
    have hd1 : min 1 ((totalResourcesOf p : ℚ) / 15) ≤ 1 := min_le_left _ _
    have hf0 : (0 : ℚ) ≤ min 1 (p.totalBudget / 10000000) :=
      le_min (by norm_num) (by positivity)
    have hf1 : min 1 (p.totalBudget / 10000000) ≤ 1 := min_le_left _ _
    constructor <;> nlinarith
  · norm_num

theorem projectComplexityOf_bounds (p : Project) (hb : 0 ≤ p.totalBudget) :
    0 ≤ projectComplexityOf p ∧ projectComplexityOf p ≤ 1 := by
  unfold projectComplexityOf
  dsimp only
  have hd0 : (0 : ℚ) ≤ min 1 (p.totalBudget / 50000000) :=
    le_min (by norm_num) (by positivity)
  have hd1 : min 1 (p.totalBudget / 50000000) ≤ 1 := min_le_left _ _
  have hf0 : (0 : ℚ) ≤ min 1 ((totalResourcesOf p : ℚ) / 20) :=
    le_min (by norm_num) (by positivity)
  have hf1 : min 1 ((totalResourcesOf p : ℚ) / 20) ≤ 1 := min_le_left _ _
  constructor <;> nlinarith

theorem timelinePressureOf_bounds (p : Project) (now : ℤ) (tp : ℚ)
    (h : timelinePressureOf p now = .ok tp) : 0 ≤ tp ∧ tp ≤ 1 := by
  obtain ⟨cp, sd, ed, hr, mt, eqp, tb, loc⟩ := p
  unfold timelinePressureOf at h
  cases sd with
  | none => simp only [Except.ok.injEq] at h; subst h; norm_num
  | some s =>
    cases ed with
    | none => simp only [Except.ok.injEq] at h; subst h; norm_num
    | some e =>
      dsimp only at h
      split at h
      · exact absurd h (by simp)
      · split at h
        · simp only [Except.ok.injEq] at h; subst h; norm_num
        · split at h <;>
            (simp only [Except.ok.injEq] at h; subst h; norm_num)

/-- Python `xs[-n:]`: the last `n` elements of a list (all of it when it is
shorter). -/
def lastSlice (n : ℕ) (xs : List ℚ) : List ℚ := xs.drop (xs.length - n)

/-- Core of `_calculate_confidence` (`ml_system/train_model.py`, lines
166–170): the 95% interval built from a centre `m` and a spread `s`,
`[max(0, m - 1.96*s), m + 1.96*s]`. -/
def confidenceInterval (m s : ℚ) : ℚ × ℚ :=
  (max 0 (m - (196/100) * s), m + (196/100) * s)

/-- Delay branch of `_calculate_confidence`: `m` is the mean of the per-tree
predictions of the random forest; the spread `s` (the standard deviation
`np.std(tree_predictions)`) is passed explicitly, constrained by
`s ≥ 0 ∧ s² = pyVariance treePreds` in the theorems, since square roots
leave `ℚ`. -/
def delayConfidence (treePreds : List ℚ) (s : ℚ) : ℚ × ℚ :=
  confidenceInterval (pyMean treePreds) s

/-- Cost branch of `_calculate_confidence`: `m` is the final staged
prediction of the gradient-boosting model (`staged_preds[-1][0]`); the
spread `s` is `np.std` of the last 10 staged predictions, passed explicitly
with the constraint `s ≥ 0 ∧ s² = pyVariance (MLSystem.lastSlice 10 staged)`. -/
def costConfidence (staged : List ℚ) (s : ℚ) : ℚ × ℚ :=
  confidenceInterval (staged.getLastD 0) s

/-- Fitted `StandardScaler`: per-feature centre and scale. -/
structure Scaler where
  mean : List ℚ
  scale : List ℚ
deriving DecidableEq, Repr

/-- `StandardScaler.transform` on one row: `(x - mean) / scale`
coordinatewise. -/
def transform (sc : Scaler) (row : List ℚ) : List ℚ :=
  (row.zip (sc.mean.zip sc.scale)).map (fun p => (p.1 - p.2.1) / p.2.2)

/-- Row of feature values in the order of `feature_names`
(`train_model.py`, lines 23–29). -/
def featureRow (f : Features) : List ℚ :=
  [f.progress_efficiency, f.resource_availability, f.project_complexity,
   f.weather_impact, f.timeline_pressure]

/-- `_calculate_overall_confidence` (`ml_system/train_model.py`, lines
172–184): start from 85, subtract 5 for every value of the given row below
0.1 or above 0.9, clamp to `[60, 95]`.  In `predict` the row it receives is
`features_scaled[0]`, the SCALED feature row. -/
def calculate_overall_confidence (row : List ℚ) : ℚ :=
  max 60 (min 95
    (85 - 5 * ((row.filter (fun v => decide (v < 1/10 ∨ 9/10 < v))).length : ℚ)))

/-- Result record of `ConstructionDelayPredictor.predict`
(`ml_system/train_model.py`, lines 145–151). -/
structure Prediction where
  predicted_delay_days : ℚ
  predicted_additional_cost : ℚ
  delay_confidence_interval : ℚ × ℚ
  cost_confidence_interval : ℚ × ℚ
  model_confidence : ℚ
deriving DecidableEq, Repr

/-- Shallow embedding of `ConstructionDelayPredictor.predict`
(`ml_system/train_model.py`, lines 123–151).  The fitted regressors are
opaque library objects, so they enter as functions from the scaled row:
`delayModel`/`costModel` are the ensemble point predictions,
`treePredsOf` the per-tree predictions of the random forest,
`stagedOf` the staged predictions of the gradient-boosting model, and
`sDelay`/`sCost` the standard deviations `np.std` computes for the two
branches of `_calculate_confidence`. -/
def predict (delayModel costModel : List ℚ → ℚ)
    (treePredsOf stagedOf : List ℚ → List ℚ) (sDelay sCost : ℚ)
    (sc : Scaler) (f : Features) : Prediction :=
  let features_scaled := transform sc (featureRow f)
  { predicted_delay_days := max 0 (delayModel features_scaled)
    predicted_additional_cost := max 0 (costModel features_scaled)
    delay_confidence_interval := delayConfidence (treePredsOf features_scaled) sDelay
    cost_confidence_interval := costConfidence (stagedOf features_scaled) sCost
    model_confidence := calculate_overall_confidence features_scaled }

/-- Modelled from the claim's words (claim C3), NOT from the source: the
overall confidence as the claim states it, computed from the five
engineered `[0,1]` feature values themselves rather than from the scaled
row the code actually passes. -/
def claimedConfidenceFromEngineered (f : Features) : ℚ :=
  calculate_overall_confidence (featureRow f)

/-- JSON body of a `/predict` response: an error object or the success
payload. -/
inductive RespBody where
  | errorBody (msg : String)
  | successBody (p : Prediction) (f : Features)
deriving DecidableEq

/-- HTTP response: status code plus JSON body. -/
structure HttpResponse where
  status : ℕ
  body : RespBody
deriving DecidableEq

/-- Shallow embedding of the `/predict` handler `predict_delay`
(`ml_system/ml_api.py`, lines 121–181).  `getJsonResult` models
`request.get_json()`: `Except.error` when it raises, `ok none` when the
body is falsy (`not data`), `ok (some none)` when it is truthy but has no
`'project'` key, `ok (some (some p))` otherwise.  `predictOutcome` models
`predictor.predict`, which raises (`Except.error`) e.g. when the models are
not loaded.  Every raise inside the `try` block lands in the
`except Exception` arm, which returns a 500 JSON body with the exception
message. -/
def predict_delay (getJsonResult : Except String (Option (Option Project)))
    (now : ℤ) (predictOutcome : Features → Except String Prediction) :
    HttpResponse :=
  match getJsonResult with
  | .error e => ⟨500, .errorBody e⟩
  | .ok none => ⟨400, .errorBody ("Project data required")⟩
  | .ok (some none) => ⟨400, .errorBody ("Project data required")⟩
  | .ok (some (some proj)) =>
    match extract_features_from_project proj now with
    | .error e => ⟨500, .errorBody e⟩
    | .ok feats =>
      match predictOutcome feats with
      | .error e => ⟨500, .errorBody e⟩
      | .ok p => ⟨200, .successBody p feats⟩

end MLSystem

namespace MLTraining

/-- Mutable state of the process-wide `ConstructionDelayPredictor` of
`ml_training/delay_predictor.py`, restricted to the fields the serving
process can observe change.  The opaque fitted scikit-learn objects are
represented by what identifies them in the source: the keys of
`self.models`, the selected `best_model_name`, the feature columns, the
keys of `label_encoders`, the `cv_mae` entries of `training_history`, and
the column list the scaler was last fitted on. -/
structure PredictorState where
  modelKeys : List String
  best_model_name : Option String
  feature_names : List String
  labelEncoderKeys : List String
  trainingHistory : List (String × ℚ)
  scalerFitCols : Option (List String)
deriving DecidableEq, Repr

/-- Requests of the serving API (`ml_training/ml_api.py`).  The `/retrain`
request carries the data the retraining pipeline consumes: the columns of
the dataset CSV and the cross-validation MAEs the library reports for the
two models (opaque library outputs made explicit). -/
inductive ApiRequest where
  | health
  | predictDelay
  | modelInfo
  | featureImportanceReq
  | batchPredict
  | retrain (cols : List String) (cvMaeRF cvMaeGB : ℚ)
deriving DecidableEq

/-- The categorical columns `load_and_preprocess_data` label-encodes. -/
def categoricalCols : List String :=
  ["project_type", "location", "climate_zone", "season_started"]

/-- State update of the `/retrain` handler (`ml_training/ml_api.py`, lines
122–165): `load_and_preprocess_data` adds a label encoder per categorical
column present and overwrites `feature_names`; `initialize_models` resets
`self.models`; `train_models` refits the scaler on the feature columns,
stores the results dict as `training_history`, and picks
`best_model_name = min(results.keys(), key=cv_mae)` — `random_forest`
first in iteration order, so gradient boosting wins only strictly. -/
def retrainUpdate (st : PredictorState) (cols : List String)
    (cvMaeRF cvMaeGB : ℚ) : PredictorState :=
  let newEncoderKeys := st.labelEncoderKeys ++
    (categoricalCols.filter (fun c => c ∈ cols ∧ c ∉ st.labelEncoderKeys))
  let featNames := cols.filter
    (fun c => decide (c ≠ "project_id") && decide (c ≠ "actual_delay_days"))
  let hist := [("random_forest", cvMaeRF), ("gradient_boost", cvMaeGB)]
  let best := if cvMaeGB < cvMaeRF then "gradient_boost" else "random_forest"
  { modelKeys := ["random_forest", "gradient_boost"]
    best_model_name := some best
    feature_names := featNames
    labelEncoderKeys := newEncoderKeys
    trainingHistory := hist
    scalerFitCols := some featNames }

/-- Effect of one handled request on the process-wide predictor state.  The
read-only handlers (`/health`, `/predict-delay`, `/model-info`,
`/feature-importance`, `/batch-predict`) never assign to the predictor in
the source; only `/retrain` calls `load_and_preprocess_data`,
`initialize_models` and `train_models`, which do. -/
def handle (st : PredictorState) (r : ApiRequest) : PredictorState :=
  match r with
  | .retrain cols cvRF cvGB => retrainUpdate st cols cvRF cvGB
  | _ => st

/-- Result record of `predict_delay` (`ml_training/delay_predictor.py`,
lines 210–224), with `raw` the opaque regressor output and `cvMae` the
stored cross-validation MAE of the best model. -/
structure DelayPrediction where
  predicted_delay_days : ℚ
  confidence_interval : ℚ × ℚ
  confidence_percentage : ℚ
deriving DecidableEq, Repr

/-- Shallow embedding of the tail of `predict_delay`
(`ml_training/delay_predictor.py`, lines 210–224): clamp and round the raw
prediction, build `[max(0, p - mae), p + mae]` rounded to one decimal, and
bound the confidence percentage into `[60, 95]`. -/
def predict_delay (raw cvMae : ℚ) : DelayPrediction :=
  { predicted_delay_days := max 0 (pyRound raw 1)
    confidence_interval :=
      (pyRound (max 0 (raw - cvMae)) 1, pyRound (raw + cvMae) 1)
    confidence_percentage :=
      pyRound (max 60 (min 95 (100 - cvMae / max 1 raw * 100))) 1 }

end MLTraining

/-- Claim C1 counterexample: for the record with `totalBudget = -1000000000`
and 15 human resources (and no dates, so extraction succeeds), the
engineered `resource_availability` returned by
`extract_features_from_project` is `-39.4`, far outside `[0, 1]`: the
budget factor `min(1.0, budget / 10000000)` is not clamped from below. -/
theorem extract_features_negative_budget_cex :
    Except.map MLSystem.Features.resource_availability
      (MLSystem.extract_features_from_project
        { currentProgress := 0, startDate := none, endDate := none,
          humanResources := 15, materials := 0, equipment := 0,
          totalBudget := -1000000000, location := [] } 0) =
      .ok (-197/5) ∧ ¬ ((0 : ℚ) ≤ -197/5) := by
  constructor
  · norm_num [MLSystem.extract_features_from_project,
      MLSystem.timelinePressureOf, MLSystem.resourceAvailabilityOf,
      MLSystem.totalResourcesOf, pyRound, pyRoundHalfEven, Except.map,
      min_def, max_def]
  · norm_num

/-- Claim C1 (amended): provided the project's `totalBudget` is nonnegative,
each of the five engineered features returned by
`extract_features_from_project` (progress efficiency, resource
availability, project complexity, weather impact, timeline pressure) lies
in the closed interval `[0, 1]`. -/
theorem extract_features_in_unit_interval (p : MLSystem.Project) (now : ℤ)
    (f : MLSystem.Features) (hb : 0 ≤ p.totalBudget)
    (hok : MLSystem.extract_features_from_project p now = .ok f) :
    (0 ≤ f.progress_efficiency ∧ f.progress_efficiency ≤ 1) ∧
    (0 ≤ f.resource_availability ∧ f.resource_availability ≤ 1) ∧
    (0 ≤ f.project_complexity ∧ f.project_complexity ≤ 1) ∧
    (0 ≤ f.weather_impact ∧ f.weather_impact ≤ 1) ∧
    (0 ≤ f.timeline_pressure ∧ f.timeline_pressure ≤ 1) := by
  obtain ⟨tp, htl, hf⟩ := MLSystem.extract_ok_shape p now f hok
  subst hf
  obtain ⟨hpe0, hpe1⟩ := MLSystem.progressEfficiencyOf_bounds p now
  obtain ⟨hra0, hra1⟩ := MLSystem.resourceAvailabilityOf_bounds p hb
  obtain ⟨hpc0, hpc1⟩ := MLSystem.projectComplexityOf_bounds p hb
  obtain ⟨hwi0, hwi1⟩ := MLSystem.lookupWeather_bounds (p.location.map Char.toLower)
  obtain ⟨htp0, htp1⟩ := MLSystem.timelinePressureOf_bounds p now tp htl
  have hwi0' : 0 ≤ MLSystem.weatherImpactOf p := hwi0
  have hwi1' : MLSystem.weatherImpactOf p ≤ 1 := hwi1
  exact ⟨⟨pyRound_nonneg hpe0 3, pyRound_le_one hpe1 3⟩,
    ⟨pyRound_nonneg hra0 3, pyRound_le_one hra1 3⟩,
    ⟨pyRound_nonneg hpc0 3, pyRound_le_one hpc1 3⟩,
    ⟨pyRound_nonneg hwi0' 3, pyRound_le_one hwi1' 3⟩,
    ⟨pyRound_nonneg htp0 3, pyRound_le_one htp1 3⟩⟩

/-- Claim C1 witness: the amended theorem applied to a concrete record with
zero budget and no resources, whose extraction yields the feature vector
`(0.8, 0.5, 0, 0.7, 0.4)`. -/
theorem extract_features_in_unit_interval_witness :
    (0 : ℚ) ≤
      MLSystem.Project.totalBudget
        { currentProgress := 0, startDate := none, endDate := none,
          humanResources := 0, materials := 0, equipment := 0,
          totalBudget := 0, location := [] } ∧
    MLSystem.extract_features_from_project
      { currentProgress := 0, startDate := none, endDate := none,
        humanResources := 0, materials := 0, equipment := 0,
        totalBudget := 0, location := [] } 0 =
      .ok { progress_efficiency := 4/5, resource_availability := 1/2,
            project_complexity := 0, weather_impact := 7/10,
            timeline_pressure := 2/5 } ∧
    ((0 ≤ (4/5 : ℚ) ∧ (4/5 : ℚ) ≤ 1) ∧
     (0 ≤ (1/2 : ℚ) ∧ (1/2 : ℚ) ≤ 1) ∧
     (0 ≤ (0 : ℚ) ∧ (0 : ℚ) ≤ 1) ∧
     (0 ≤ (7/10 : ℚ) ∧ (7/10 : ℚ) ≤ 1) ∧
     (0 ≤ (2/5 : ℚ) ∧ (2/5 : ℚ) ≤ 1)) := by
  have hb : (0 : ℚ) ≤
      MLSystem.Project.totalBudget
        { currentProgress := 0, startDate := none, endDate := none,
          humanResources := 0, materials := 0, equipment := 0,
          totalBudget := 0, location := [] } := by norm_num
  have hok : MLSystem.extract_features_from_project
      { currentProgress := 0, startDate := none, endDate := none,
        humanResources := 0, materials := 0, equipment := 0,
        totalBudget := 0, location := [] } 0 =
      .ok { progress_efficiency := 4/5, resource_availability := 1/2,
            project_complexity := 0, weather_impact := 7/10,
            timeline_pressure := 2/5 } := by
    have hw : MLSystem.lookupWeather ([] : List Char) = 7/10 := rfl
    norm_num [MLSystem.extract_features_from_project,
      MLSystem.timelinePressureOf, MLSystem.progressEfficiencyOf,
      MLSystem.resourceAvailabilityOf, MLSystem.projectComplexityOf,
      MLSystem.totalResourcesOf, MLSystem.weatherImpactOf, hw,
      pyRound, pyRoundHalfEven, min_def, max_def]
  exact ⟨hb, hok, extract_features_in_unit_interval _ 0 _ hb hok⟩

/-- Claim C2 counterexample: a fitted forest whose trees all predict `-10`
(mean `-10`, standard deviation `0`, so `s = 0` is exactly
`np.std(tree_predictions)`) makes `_calculate_confidence` return the
interval `[0, -10]`: the returned lower bound exceeds the upper bound. -/
theorem confidence_interval_inverted_cex :
    pyVariance [(-10 : ℚ), -10] = 0 ∧
    (MLSystem.delayConfidence [(-10 : ℚ), -10] 0).2 <
      (MLSystem.delayConfidence [(-10 : ℚ), -10] 0).1 := by
  constructor
  · norm_num [pyVariance, pyMean]
  · norm_num [MLSystem.delayConfidence, MLSystem.confidenceInterval,
      pyMean, max_def]

/-- Claim C2 (amended): `_calculate_confidence` returns
`[max(0, m - 1.96*s), m + 1.96*s]`, where for the delay model `m` and `s`
are the mean and standard deviation of the per-tree predictions and for the
cost model `m` is the final staged prediction and `s` the standard
deviation of the last 10 staged predictions; the lower bound is always
nonnegative, and it does not exceed the upper bound whenever the centre `m`
is nonnegative (the counterexample shows it can exceed it when `m` is
negative enough). -/
theorem confidence_interval_shape (treePreds staged : List ℚ) (sD sC : ℚ)
    (hsD0 : 0 ≤ sD) (hsDvar : sD ^ 2 = pyVariance treePreds)
    (hsC0 : 0 ≤ sC) (hsCvar : sC ^ 2 = pyVariance (MLSystem.lastSlice 10 staged)) :
    (MLSystem.delayConfidence treePreds sD).1 =
      max 0 (pyMean treePreds - (196/100) * sD) ∧
    (MLSystem.delayConfidence treePreds sD).2 =
      pyMean treePreds + (196/100) * sD ∧
    0 ≤ (MLSystem.delayConfidence treePreds sD).1 ∧
    (0 ≤ pyMean treePreds →
      (MLSystem.delayConfidence treePreds sD).1 ≤
        (MLSystem.delayConfidence treePreds sD).2) ∧
    (MLSystem.costConfidence staged sC).1 =
      max 0 (staged.getLastD 0 - (196/100) * sC) ∧
    (MLSystem.costConfidence staged sC).2 =
      staged.getLastD 0 + (196/100) * sC ∧
    0 ≤ (MLSystem.costConfidence staged sC).1 ∧
    (0 ≤ staged.getLastD 0 →
      (MLSystem.costConfidence staged sC).1 ≤
        (MLSystem.costConfidence staged sC).2) := by
  unfold MLSystem.delayConfidence MLSystem.costConfidence MLSystem.confidenceInterval
  dsimp only
  refine ⟨rfl, rfl, le_max_left _ _, ?_, rfl, rfl, le_max_left _ _, ?_⟩
  · intro hm
    exact max_le (by linarith) (by linarith)
  · intro hm
    exact max_le (by linarith) (by linarith)

/-- Claim C2 witness: the amended theorem at tree predictions `[1, 1]`
(mean 1, std 0) and staged predictions `[2]` (last value 2, std 0). -/
theorem confidence_interval_shape_witness :
    (0 : ℚ) ≤ 0 ∧ (0 : ℚ) ^ 2 = pyVariance [(1 : ℚ), 1] ∧
    (0 : ℚ) ^ 2 = pyVariance (MLSystem.lastSlice 10 [(2 : ℚ)]) ∧
    0 ≤ (MLSystem.delayConfidence [(1 : ℚ), 1] 0).1 ∧
    (MLSystem.delayConfidence [(1 : ℚ), 1] 0).1 ≤
      (MLSystem.delayConfidence [(1 : ℚ), 1] 0).2 ∧
    0 ≤ (MLSystem.costConfidence [(2 : ℚ)] 0).1 ∧
    (MLSystem.costConfidence [(2 : ℚ)] 0).1 ≤
      (MLSystem.costConfidence [(2 : ℚ)] 0).2 := by
  have h1 : (0 : ℚ) ≤ 0 := le_refl 0
  have h2 : (0 : ℚ) ^ 2 = pyVariance [(1 : ℚ), 1] := by
    norm_num [pyVariance, pyMean]
  have h3 : (0 : ℚ) ^ 2 = pyVariance (MLSystem.lastSlice 10 [(2 : ℚ)]) := by
    norm_num [pyVariance, pyMean, MLSystem.lastSlice]
  have hall := confidence_interval_shape [(1 : ℚ), 1] [(2 : ℚ)] 0 0 h1 h2 h1 h3
  have hm1 : (0 : ℚ) ≤ pyMean [(1 : ℚ), 1] := by norm_num [pyMean]
  have hm2 : (0 : ℚ) ≤ List.getLastD [(2 : ℚ)] 0 := by
    norm_num [List.getLastD]
  exact ⟨h1, h2, h3, hall.2.2.1, hall.2.2.2.1 hm1,
    hall.2.2.2.2.2.2.1, hall.2.2.2.2.2.2.2 hm2⟩

/-- Claim C3 counterexample: with a fitted scaler centred at `0.5` (unit
scale) and all five engineered features equal to `0.5` — none of which is
below 0.1 or above 0.9 — the claim predicts confidence 85, but `predict`
reports 60: `_calculate_overall_confidence` is applied to the SCALED row
(all zeros there), not to the engineered features. -/
theorem overall_confidence_scaled_row_cex :
    (MLSystem.predict (fun _ => 0) (fun _ => 0) (fun _ => []) (fun _ => [])
        0 0
        { mean := [1/2, 1/2, 1/2, 1/2, 1/2], scale := [1, 1, 1, 1, 1] }
        { progress_efficiency := 1/2, resource_availability := 1/2,
          project_complexity := 1/2, weather_impact := 1/2,
          timeline_pressure := 1/2 }).model_confidence = 60 ∧
    MLSystem.claimedConfidenceFromEngineered
      { progress_efficiency := 1/2, resource_availability := 1/2,
        project_complexity := 1/2, weather_impact := 1/2,
        timeline_pressure := 1/2 } = 85 ∧
    (60 : ℚ) ≠ 85 := by
  refine ⟨?_, ?_, by norm_num⟩
  · norm_num [MLSystem.predict, MLSystem.transform, MLSystem.featureRow,
      MLSystem.calculate_overall_confidence, List.filter, min_def, max_def]
  · norm_num [MLSystem.claimedConfidenceFromEngineered,
      MLSystem.calculate_overall_confidence, MLSystem.featureRow,
      List.filter, min_def, max_def]

/-- Claim C3 (amended): the overall model confidence returned by `predict`
equals 85 reduced by 5 for each SCALED feature value (the engineered
features after `StandardScaler.transform`) lying below 0.1 or above 0.9,
clamped to `[60, 95]`; in particular it is always between 60 and 95. -/
theorem overall_confidence_from_scaled_row (dm cm : List ℚ → ℚ)
    (tpf spf : List ℚ → List ℚ) (sD sC : ℚ) (sc : MLSystem.Scaler)
    (f : MLSystem.Features) :
    (MLSystem.predict dm cm tpf spf sD sC sc f).model_confidence =
      max 60 (min 95 (85 - 5 *
        (((MLSystem.transform sc (MLSystem.featureRow f)).filter
            (fun v => decide (v < 1/10 ∨ 9/10 < v))).length : ℚ))) ∧
    60 ≤ (MLSystem.predict dm cm tpf spf sD sC sc f).model_confidence ∧
    (MLSystem.predict dm cm tpf spf sD sC sc f).model_confidence ≤ 95 :=
  ⟨rfl, le_max_left _ _, max_le (by norm_num) (min_le_left _ _)⟩

/-- Claim C4: the code, not the claim, is at fault.  The record whose
`startDate` and `endDate` are the same valid date (planned duration zero
days) makes `extract_features_from_project` raise `ZeroDivisionError` in
the timeline-pressure computation, although the claim (and the guarded
progress-efficiency branch just above the faulty line) expect zero-duration
projects to be handled without an exception. -/
theorem extract_features_zero_duration_raises :
    MLSystem.extract_features_from_project
      { currentProgress := 50, startDate := some 738886,
        endDate := some 738886, humanResources := 1, materials := 1,
        equipment := 1, totalBudget := 5000000, location := [] } 738886 =
      .error ("division by zero") := by
  norm_num [MLSystem.extract_features_from_project,
    MLSystem.timelinePressureOf]

/-- Claim C5 counterexample: the same project record extracted at two
different current dates (day 0 and day 100 of a 100-day project) yields two
different feature vectors — `datetime.now()` makes the result depend on
the call time, not on the record alone. -/
theorem extract_features_two_calls_differ_cex :
    MLSystem.extract_features_from_project
      { currentProgress := 0, startDate := some 0, endDate := some 100,
        humanResources := 0, materials := 0, equipment := 0,
        totalBudget := 0, location := [] } 0 ≠
    MLSystem.extract_features_from_project
      { currentProgress := 0, startDate := some 0, endDate := some 100,
        humanResources := 0, materials := 0, equipment := 0,
        totalBudget := 0, location := [] } 100 := by
  have hw : MLSystem.lookupWeather ([] : List Char) = 7/10 := rfl
  have h1 : MLSystem.extract_features_from_project
      { currentProgress := 0, startDate := some 0, endDate := some 100,
        humanResources := 0, materials := 0, equipment := 0,
        totalBudget := 0, location := [] } 0 =
      .ok { progress_efficiency := 1, resource_availability := 1/2,
            project_complexity := 0, weather_impact := 7/10,
            timeline_pressure := 3/10 } := by
    norm_num [MLSystem.extract_features_from_project,
      MLSystem.timelinePressureOf, MLSystem.progressEfficiencyOf,
      MLSystem.resourceAvailabilityOf, MLSystem.projectComplexityOf,
      MLSystem.totalResourcesOf, MLSystem.weatherImpactOf, hw,
      pyRound, pyRoundHalfEven, min_def, max_def]
  have h2 : MLSystem.extract_features_from_project
      { currentProgress := 0, startDate := some 0, endDate := some 100,
        humanResources := 0, materials := 0, equipment := 0,
        totalBudget := 0, location := [] } 100 =
      .ok { progress_efficiency := 1/10, resource_availability := 1/2,
            project_complexity := 0, weather_impact := 7/10,
            timeline_pressure := 4/5 } := by
    norm_num [MLSystem.extract_features_from_project,
      MLSystem.timelinePressureOf, MLSystem.progressEfficiencyOf,
      MLSystem.resourceAvailabilityOf, MLSystem.projectComplexityOf,
      MLSystem.totalResourcesOf, MLSystem.weatherImpactOf, hw,
      pyRound, pyRoundHalfEven, min_def, max_def]
  rw [h1, h2]
  intro h
  simp only [Except.ok.injEq, MLSystem.Features.mk.injEq] at h
  have := h.1
  norm_num at this

/-- Claim C5 (amended): feature derivation is deterministic as a function
of the project record AND the current date: two calls of
`extract_features_from_project` with the same field values and the same
current date return the same feature vector (different current dates may
differ, as the counterexample shows). -/
theorem extract_features_deterministic (p q : MLSystem.Project) (n m : ℤ)
    (hpq : p = q) (hnm : n = m) :
    MLSystem.extract_features_from_project p n =
      MLSystem.extract_features_from_project q m := by
  subst hpq
  subst hnm
  rfl

/-- Claim C5 witness: determinism instantiated at a concrete record and
date. -/
theorem extract_features_deterministic_witness :
    MLSystem.extract_features_from_project
      { currentProgress := 0, startDate := some 0, endDate := some 100,
        humanResources := 0, materials := 0, equipment := 0,
        totalBudget := 0, location := [] } 0 =
    MLSystem.extract_features_from_project
      { currentProgress := 0, startDate := some 0, endDate := some 100,
        humanResources := 0, materials := 0, equipment := 0,
        totalBudget := 0, location := [] } 0 :=
  extract_features_deterministic _ _ 0 0 rfl rfl

/-- Claim C6 counterexample: a `POST /retrain` request handled by the
serving process DOES modify the process-wide predictor — here retraining
on a dataset with one column `"a"` overwrites the model keys, the feature
names, the training history and the best-model selection of a
freshly-initialised predictor state. -/
theorem retrain_mutates_predictor_cex :
    MLTraining.handle
      { modelKeys := [], best_model_name := none, feature_names := [],
        labelEncoderKeys := [], trainingHistory := [],
        scalerFitCols := none }
      (.retrain ["a"] 1 2) ≠
    { modelKeys := [], best_model_name := none, feature_names := [],
      labelEncoderKeys := [], trainingHistory := [],
      scalerFitCols := none } := by
  simp [MLTraining.handle, MLTraining.retrainUpdate,
    MLTraining.categoricalCols, MLTraining.PredictorState.mk.injEq]

/-- Claim C6 (amended): every request handled by the HTTP layer EXCEPT
`POST /retrain` leaves the process-wide predictor state (model, scaler,
encoders, feature names, training history) unchanged; `/retrain` refits
and replaces that state. -/
theorem non_retrain_requests_preserve_predictor
    (st : MLTraining.PredictorState) :
    MLTraining.handle st .health = st ∧
    MLTraining.handle st .predictDelay = st ∧
    MLTraining.handle st .modelInfo = st ∧
    MLTraining.handle st .featureImportanceReq = st ∧
    MLTraining.handle st .batchPredict = st :=
  ⟨rfl, rfl, rfl, rfl, rfl⟩

/-- Claim C7: missing inputs are replaced by the literal default constants
of `extract_features_from_project`: absent start or end date gives
progress efficiency `0.8` and timeline pressure `0.4`; zero total
resources gives resource availability `0.5`; a location matching no city of
the weather table gives weather impact `0.7`. -/
theorem extract_features_missing_input_defaults :
    (∀ (p : MLSystem.Project) (now : ℤ),
      (p.startDate = none ∨ p.endDate = none) →
      Except.map
        (fun f => (MLSystem.Features.progress_efficiency f,
                   MLSystem.Features.timeline_pressure f))
        (MLSystem.extract_features_from_project p now) = .ok (4/5, 2/5)) ∧
    (∀ (p : MLSystem.Project) (now : ℤ) (f : MLSystem.Features),
      MLSystem.totalResourcesOf p = 0 →
      MLSystem.extract_features_from_project p now = .ok f →
      f.resource_availability = 1/2) ∧
    (∀ (p : MLSystem.Project) (now : ℤ) (f : MLSystem.Features),
      (∀ c ∈ MLSystem.weather_risk_map,
        MLSystem.strContains (p.location.map Char.toLower) c.1 = false) →
      MLSystem.extract_features_from_project p now = .ok f →
      f.weather_impact = 7/10) := by
  refine ⟨?_, ?_, ?_⟩
  · intro p now hmiss
    have hpe : MLSystem.progressEfficiencyOf p now = 8/10 := by
      obtain ⟨cp, sd, ed, hr, mt, eqp, tb, loc⟩ := p
      rcases hmiss with h | h <;> simp_all [MLSystem.progressEfficiencyOf]
    have htl : MLSystem.timelinePressureOf p now = .ok (4/10) := by
      obtain ⟨cp, sd, ed, hr, mt, eqp, tb, loc⟩ := p
      rcases hmiss with h | h <;> simp_all [MLSystem.timelinePressureOf]
    unfold MLSystem.extract_features_from_project
    rw [htl]
    simp only [Except.map]
    rw [hpe]
    norm_num [pyRound, pyRoundHalfEven]
  · intro p now f hres hok
    obtain ⟨tp, htl, hf⟩ := MLSystem.extract_ok_shape p now f hok
    subst hf
    have hra : MLSystem.resourceAvailabilityOf p = 1/2 := by
      unfold MLSystem.resourceAvailabilityOf
      rw [hres]
      norm_num
    dsimp only
    rw [hra]
    norm_num [pyRound, pyRoundHalfEven]
  · intro p now f hw hok
    obtain ⟨tp, htl, hf⟩ := MLSystem.extract_ok_shape p now f hok
    subst hf
    have hwi : MLSystem.weatherImpactOf p = 7/10 := by
      unfold MLSystem.weatherImpactOf MLSystem.lookupWeather
      have hnone : MLSystem.weather_risk_map.find?
          (fun q => MLSystem.strContains (p.location.map Char.toLower) q.1) =
          none := by
        apply List.find?_eq_none.mpr
        intro c hc
        simp [hw c hc]
      rw [hnone]
    dsimp only
    rw [hwi]
    norm_num [pyRound, pyRoundHalfEven]

/-- Claim C7 witness: the three default clauses instantiated at a concrete
record with no dates, no resources, and an empty location. -/
theorem extract_features_missing_input_defaults_witness :
    Except.map
      (fun f => (MLSystem.Features.progress_efficiency f,
                 MLSystem.Features.timeline_pressure f))
      (MLSystem.extract_features_from_project
        { currentProgress := 0, startDate := none, endDate := none,
          humanResources := 0, materials := 0, equipment := 0,
          totalBudget := 0, location := [] } 0) = .ok (4/5, 2/5) ∧
    MLSystem.Features.resource_availability
      { progress_efficiency := 4/5, resource_availability := 1/2,
        project_complexity := 0, weather_impact := 7/10,
        timeline_pressure := 2/5 } = 1/2 ∧
    MLSystem.Features.weather_impact
      { progress_efficiency := 4/5, resource_availability := 1/2,
        project_complexity := 0, weather_impact := 7/10,
        timeline_pressure := 2/5 } = 7/10 := by
  have hok : MLSystem.extract_features_from_project
      { currentProgress := 0, startDate := none, endDate := none,
        humanResources := 0, materials := 0, equipment := 0,
        totalBudget := 0, location := [] } 0 =
      .ok { progress_efficiency := 4/5, resource_availability := 1/2,
            project_complexity := 0, weather_impact := 7/10,
            timeline_pressure := 2/5 } := by
    have hw : MLSystem.lookupWeather ([] : List Char) = 7/10 := rfl
    norm_num [MLSystem.extract_features_from_project,
      MLSystem.timelinePressureOf, MLSystem.progressEfficiencyOf,
      MLSystem.resourceAvailabilityOf, MLSystem.projectComplexityOf,
      MLSystem.totalResourcesOf, MLSystem.weatherImpactOf, hw,
      pyRound, pyRoundHalfEven, min_def, max_def]
  refine ⟨extract_features_missing_input_defaults.1 _ 0 (Or.inl rfl),
    extract_features_missing_input_defaults.2.1
      { currentProgress := 0, startDate := none, endDate := none,
        humanResources := 0, materials := 0, equipment := 0,
        totalBudget := 0, location := [] } 0 _ rfl hok,
    extract_features_missing_input_defaults.2.2
      { currentProgress := 0, startDate := none, endDate := none,
        humanResources := 0, materials := 0, equipment := 0,
        totalBudget := 0, location := [] } 0 _ ?_ hok⟩
  intro c hc
  fin_cases hc <;> rfl

/-- Claim C8: the `/predict` handler always produces an HTTP JSON response
and never propagates an exception: 400 with a JSON error body exactly when
the parsed request body is falsy or lacks the `'project'` key; 500 with a
JSON error body carrying the exception message when anything inside the
`try` block raises (JSON parsing, feature extraction, or prediction); and
200 with the JSON success body otherwise. -/
theorem predict_handler_total
    (g : Except String (Option (Option MLSystem.Project))) (now : ℤ)
    (po : MLSystem.Features → Except String MLSystem.Prediction) :
    ((MLSystem.predict_delay g now po).status = 400 ∧
      (∃ m, (MLSystem.predict_delay g now po).body = .errorBody m) ∧
      (g = .ok none ∨ g = .ok (some none))) ∨
    ((MLSystem.predict_delay g now po).status = 500 ∧
      (∃ m, (MLSystem.predict_delay g now po).body = .errorBody m ∧
        (g = .error m ∨
         (∃ pr, g = .ok (some (some pr)) ∧
           (MLSystem.extract_features_from_project pr now = .error m ∨
            (∃ f, MLSystem.extract_features_from_project pr now = .ok f ∧
              po f = .error m)))))) ∨
    ((MLSystem.predict_delay g now po).status = 200 ∧
      ∃ pd f, (MLSystem.predict_delay g now po).body = .successBody pd f) := by
  rcases g with e | data
  · right; left
    exact ⟨rfl, e, rfl, Or.inl rfl⟩
  · rcases data with _ | pr?
    · left
      exact ⟨rfl, ⟨_, rfl⟩, Or.inl rfl⟩
    · rcases pr? with _ | pr
      · left
        exact ⟨rfl, ⟨_, rfl⟩, Or.inr rfl⟩
      · cases hex : MLSystem.extract_features_from_project pr now with
        | error e =>
          right; left
          refine ⟨?_, e, ?_, Or.inr ⟨pr, rfl, Or.inl hex⟩⟩ <;>
            simp [MLSystem.predict_delay, hex]
        | ok f =>
          cases hpo : po f with
          | error e =>
            right; left
            refine ⟨?_, e, ?_, Or.inr ⟨pr, rfl, Or.inr ⟨f, hex, hpo⟩⟩⟩ <;>
              simp [MLSystem.predict_delay, hex, hpo]
          | ok pd =>
            right; right
            refine ⟨?_, pd, f, ?_⟩ <;>
              simp [MLSystem.predict_delay, hex, hpo]

/-- Claim C9: any project record whose location lowercases to `"mumbai"`
(the string `'Mumbai'` in any letter case) is assigned the weather impact
`0.9` of the hard-coded city table by `extract_features_from_project`. -/
theorem mumbai_weather_impact (p : MLSystem.Project) (now : ℤ)
    (f : MLSystem.Features)
    (hloc : p.location.map Char.toLower = "mumbai".toList)
    (hok : MLSystem.extract_features_from_project p now = .ok f) :
    f.weather_impact = 9/10 := by
  obtain ⟨tp, htl, hf⟩ := MLSystem.extract_ok_shape p now f hok
  subst hf
  have hwi : MLSystem.weatherImpactOf p = 9/10 := by
    unfold MLSystem.weatherImpactOf
    rw [hloc]
    rfl
  dsimp only
  rw [hwi]
  norm_num [pyRound, pyRoundHalfEven]

/-- Claim C9 witness: the record with location `"MumBai"` extracts with
weather impact `0.9`. -/
theorem mumbai_weather_impact_witness :
    List.map Char.toLower
      (MLSystem.Project.location
        { currentProgress := 0, startDate := none, endDate := none,
          humanResources := 0, materials := 0, equipment := 0,
          totalBudget := 0, location := "MumBai".toList }) =
      "mumbai".toList ∧
    MLSystem.extract_features_from_project
      { currentProgress := 0, startDate := none, endDate := none,
        humanResources := 0, materials := 0, equipment := 0,
        totalBudget := 0, location := "MumBai".toList } 0 =
      .ok { progress_efficiency := 4/5, resource_availability := 1/2,
            project_complexity := 0, weather_impact := 9/10,
            timeline_pressure := 2/5 } ∧
    MLSystem.Features.weather_impact
      { progress_efficiency := 4/5, resource_availability := 1/2,
        project_complexity := 0, weather_impact := 9/10,
        timeline_pressure := 2/5 } = 9/10 := by
  have hloc : List.map Char.toLower
      (MLSystem.Project.location
        { currentProgress := 0, startDate := none, endDate := none,
          humanResources := 0, materials := 0, equipment := 0,
          totalBudget := 0, location := "MumBai".toList }) =
      "mumbai".toList := rfl
  have hok : MLSystem.extract_features_from_project
      { currentProgress := 0, startDate := none, endDate := none,
        humanResources := 0, materials := 0, equipment := 0,
        totalBudget := 0, location := "MumBai".toList } 0 =
      .ok { progress_efficiency := 4/5, resource_availability := 1/2,
            project_complexity := 0, weather_impact := 9/10,
            timeline_pressure := 2/5 } := by
    have hw : MLSystem.lookupWeather
        ['M'.toLower, 'u'.toLower, 'm'.toLower, 'B'.toLower, 'a'.toLower,
         'i'.toLower] = 9/10 := rfl
    norm_num [MLSystem.extract_features_from_project,
      MLSystem.timelinePressureOf, MLSystem.progressEfficiencyOf,
      MLSystem.resourceAvailabilityOf, MLSystem.projectComplexityOf,
      MLSystem.totalResourcesOf, MLSystem.weatherImpactOf, hw,
      pyRound, pyRoundHalfEven, min_def, max_def]
  exact ⟨hloc, hok, mumbai_weather_impact _ 0 _ hloc hok⟩

/-- Claim C10: at the public prediction interfaces the outputs are clamped
nonnegative regardless of the raw regressor outputs: in
`ml_system/train_model.py` `predict` both point predictions and both
confidence-interval lower bounds are `≥ 0`, and in
`ml_training/delay_predictor.py` `predict_delay` the predicted delay and
the confidence-interval lower bound are `≥ 0`. -/
theorem predictions_clamped_nonneg (dm cm : List ℚ → ℚ)
    (tpf spf : List ℚ → List ℚ) (sD sC : ℚ) (sc : MLSystem.Scaler)
    (f : MLSystem.Features) (raw cvMae : ℚ) :
    0 ≤ (MLSystem.predict dm cm tpf spf sD sC sc f).predicted_delay_days ∧
    0 ≤ (MLSystem.predict dm cm tpf spf sD sC sc f).predicted_additional_cost ∧
    0 ≤ (MLSystem.predict dm cm tpf spf sD sC sc f).delay_confidence_interval.1 ∧
    0 ≤ (MLSystem.predict dm cm tpf spf sD sC sc f).cost_confidence_interval.1 ∧
    0 ≤ (MLTraining.predict_delay raw cvMae).predicted_delay_days ∧
    0 ≤ (MLTraining.predict_delay raw cvMae).confidence_interval.1 := by
  refine ⟨le_max_left _ _, le_max_left _ _, le_max_left _ _, le_max_left _ _,
    le_max_left _ _, ?_⟩
  exact pyRound_nonneg (le_max_left _ _) 1

